import Mathlib

/-!
# Verification of the ConnectSphere agent layer

A shallow embedding of the inter-agent correlation / moderation protocol of
the ConnectSphere repository (`src/agents/`), together with proofs of the
behavioural properties stated in the repository's specification.

Conventions used throughout the embedding:
* Python floats (scores, thresholds) are modelled as rationals `ℚ`.
* Python dicts with string keys are modelled as insertion-ordered association
  lists; Python `dict.get(k, d)` becomes `Option.getD`.
* Calls into external services (the JSON decoder, the sentence-embedding
  model, the set-enumeration order of Python's `set`, the Redis store as seen
  by a poller) are parameters of the embedded functions.
* A Python `try/except` block becomes a computation in `Except String`; the
  `except` handler is the `.error` branch of a `match`.
-/

namespace ConnectSphere

/-! ## Python dicts of rationals (the mutable threshold table)

`ContentModerationAgent.self.thresholds` is a Python dict from signal name to
cutoff.  We model it as an insertion-ordered association list with the usual
dict operations: lookup, single-key assignment and `dict.update`. -/

/-- `d[k]` as an `Option` (Python raises `KeyError` when absent). -/
def dictLookup : List (String × ℚ) → String → Option ℚ
  | [], _ => none
  | (k2, v) :: rest, k => if k2 == k then some v else dictLookup rest k

/-- `d[k] = v`: replace the value of an existing key in place (dict keys are
unique, so only the first matching entry exists), else append a new entry. -/
def dictSet : List (String × ℚ) → String → ℚ → List (String × ℚ)
  | [], k, v => [(k, v)]
  | (k2, v2) :: rest, k, v =>
    if k2 == k then (k, v) :: rest else (k2, v2) :: dictSet rest k v

/-- `d.update(u)`: merge `u` into `d`, key by key, in `u`'s order. -/
def dictUpdate (d u : List (String × ℚ)) : List (String × ℚ) :=
  u.foldl (fun acc p => dictSet acc p.1 p.2) d

/-- The initial moderation threshold table set in
`ContentModerationAgent.__init__`. -/
def defaultThresholds : List (String × ℚ) :=
  [("toxicity", 0.7), ("hate_speech", 0.8), ("misinformation", 0.6), ("nsfw", 0.8)]

/-- The `update_thresholds` branch of `ContentModerationAgent._handle_message`:
`self.thresholds.update(new_thresholds)`. -/
def handleUpdateThresholds (thresholds newThresholds : List (String × ℚ)) :
    List (String × ℚ) :=
  dictUpdate thresholds newThresholds

/-! ## Moderation decision policy

`ContentModerationAgent.analyze_content` reads the decoded outputs of the
three tools (each a JSON dict, fields possibly absent) and picks an action.
A missing threshold key would raise `KeyError` inside the surrounding `try`,
so the lookup runs in `Except`. -/

/-- Decoded output of `ToxicityDetectionTool`, as read via `.get`. -/
structure ToxicityData where
  toxicity_score : Option ℚ
  toxic : Option Bool
deriving DecidableEq

/-- Decoded output of `FactCheckingTool`, as read via `.get`. -/
structure FactData where
  misinformation_score : Option ℚ
  needs_review : Option Bool
deriving DecidableEq

/-- Decoded output of `NSFWDetectionTool`, as read via `.get`. -/
structure NsfwData where
  nsfw_detected : Option Bool
deriving DecidableEq

/-- `self.thresholds[k]` — a plain subscript, raising `KeyError` when the key
is absent. -/
def thresholdAt (thresholds : List (String × ℚ)) (k : String) : Except String ℚ :=
  match dictLookup thresholds k with
  | some v => .ok v
  | none => .error ("KeyError: " ++ k)

/-- The action selection of `ContentModerationAgent.analyze_content`
(lines 288–296): `reject` when toxicity exceeds the toxicity threshold, or
misinformation exceeds the misinformation threshold, or NSFW was detected;
else `flag` when toxicity exceeds the literal `0.5` or review is needed;
else `approve`. -/
def decideAction (thresholds : List (String × ℚ)) (tox : ToxicityData)
    (fact : FactData) (nsfw : NsfwData) : Except String String := do
  let toxCut ← thresholdAt thresholds "toxicity"
  let misCut ← thresholdAt thresholds "misinformation"
  if tox.toxicity_score.getD 0 > toxCut ∨
      fact.misinformation_score.getD 0 > misCut ∨
      nsfw.nsfw_detected.getD false = true then
    pure "reject"
  else if tox.toxicity_score.getD 0 > 0.5 ∨ fact.needs_review.getD false = true then
    pure "flag"
  else
    pure "approve"

/-- Reference decision function, written from the specification's words
(§4.3): `reject` if toxicity > 0.7 OR misinformation > 0.6 OR nsfw_detected;
else `flag` if toxicity > 0.5 OR needs_review; else `approve`. -/
def specDecide (toxicity misinformation : ℚ) (nsfwDetected needsReview : Bool) : String :=
  if toxicity > 0.7 ∨ misinformation > 0.6 ∨ nsfwDetected = true then "reject"
  else if toxicity > 0.5 ∨ needsReview = true then "flag"
  else "approve"

/-! ## String helpers mirroring the Python string primitives -/

/-- `needle` is a leading segment of `hay` (character-wise). -/
def listHasPre : List Char → List Char → Bool
  | [], _ => true
  | _ :: _, [] => false
  | a :: as, b :: bs => a == b && listHasPre as bs

/-- `needle in hay` for character lists (Python substring membership). -/
def listHasSub : List Char → List Char → Bool
  | needle, [] => needle.isEmpty
  | needle, b :: bs => listHasPre needle (b :: bs) || listHasSub needle bs

/-- Python `needle in hay` on strings. -/
def strHasSub (hay needle : String) : Bool :=
  listHasSub needle.data hay.data

/-- Python `s.lower()` (the strings involved are ASCII). -/
def strLower (s : String) : String :=
  ⟨s.data.map Char.toLower⟩

/-- Python `s.find(c)` for a character known to occur in `s`: the index of its
first occurrence. -/
def pyFindChar (s : String) (c : Char) : Nat :=
  s.data.indexOf c

/-- Python `s.rfind(c)` for a character known to occur in `s`: the index of
its last occurrence. -/
def pyRfindChar (s : String) (c : Char) : Nat :=
  s.data.length - 1 - s.data.reverse.indexOf c

/-- Python `s[start:stop]` for `0 ≤ start ≤ stop`. -/
def pySlice (s : String) (start stop : Nat) : String :=
  ⟨(s.data.drop start).take (stop - start)⟩

/-- The opening brace as a one-character string. -/
def lbrace : String := "\x7b"

/-- The closing brace as a one-character string. -/
def rbrace : String := "\x7d"

/-! ## Response parsers (`AutoGenOrchestrator._parse_*_response`)

Each parser receives the raw agent text and a JSON decoder.  `json.loads` is
an external library call; it is a parameter `loads : String → Option J`,
`none` standing for a raised `JSONDecodeError`.  A parser either returns the
decoded object or falls back to a role-specific record. -/

/-- Result of a parser: the decoded JSON object, or a fallback record. -/
inductive ParseResult (J R : Type) where
  | decoded (j : J)
  | fallback (r : R)
deriving DecidableEq

/-- `response[response.find('\x7b') : response.rfind('\x7d') + 1]` — the
brace-greedy substring from the first `\x7b` to the last `\x7d`. -/
def bracedSubstring (response : String) : String :=
  pySlice response (pyFindChar response '\x7b') (pyRfindChar response '\x7d' + 1)

/-- `'\x7b' in response and '\x7d' in response` — the guard on the decode
attempt. -/
def hasBraces (response : String) : Bool :=
  response.data.contains '\x7b' && response.data.contains '\x7d'

/-- Fallback record of `_parse_moderation_response`
(status / score / reasoning / issues / recommendations). -/
structure ModRecord where
  status : String
  score : Int
  reasoning : String
  issues : List String
  recommendations : List String
deriving DecidableEq

/-- The keyword heuristic of `_parse_moderation_response`: `FLAGGED` when any
of `inappropriate`, `harmful`, `spam` occurs in `response.lower()`, else
`APPROVED`. -/
def moderationKeywordStatus (response : String) : String :=
  if ["inappropriate", "harmful", "spam"].any
      (fun word => strHasSub (strLower response) word) then "FLAGGED"
  else "APPROVED"

/-- The brace-free fallback record of `_parse_moderation_response`. -/
def moderationFallback (response : String) : ModRecord :=
  ⟨moderationKeywordStatus response, 50, response, [], []⟩

/-- The record built by the `except` handler of `_parse_moderation_response`
when `json.loads` raises. -/
def moderationErrorRecord (response : String) : ModRecord :=
  ⟨"ERROR", 0, response, [], []⟩

/-- `AutoGenOrchestrator._parse_moderation_response`: extract the first-`\x7b`
to-last-`\x7d` substring and decode it; with no brace pair, fall back to the
keyword record; when the decode raises, the `except` handler returns the
`ERROR` record. -/
def parseModerationResponse {J : Type} (loads : String → Option J)
    (response : String) : ParseResult J ModRecord :=
  if hasBraces response then
    match loads (bracedSubstring response) with
    | some j => .decoded j
    | none => .fallback (moderationErrorRecord response)
  else
    .fallback (moderationFallback response)

/-- Fallback record of `_parse_personalization_response`. -/
structure PersRecord where
  topics : List String
  creators : List String
  trending : List String
  strategies : List String
  score : Int
deriving DecidableEq

/-- `AutoGenOrchestrator._parse_personalization_response`: same brace scan;
with no brace pair the fallback carries score `50`; when the decode raises,
the `except` handler returns the all-empty record with score `0`. -/
def parsePersonalizationResponse {J : Type} (loads : String → Option J)
    (response : String) : ParseResult J PersRecord :=
  if hasBraces response then
    match loads (bracedSubstring response) with
    | some j => .decoded j
    | none => .fallback ⟨[], [], [], [], 0⟩
  else
    .fallback ⟨[], [], [], [], 50⟩

/-- Fallback record of `_parse_generation_response`. -/
structure GenRecord where
  content : String
  alternatives : List String
  quality_score : Int
  engagement_score : Int
  hashtags : List String
deriving DecidableEq

/-- `AutoGenOrchestrator._parse_generation_response`: same brace scan; both
fallbacks keep the raw text as `content`; the no-brace fallback carries the
scores `50`, the `except` handler the scores `0`. -/
def parseGenerationResponse {J : Type} (loads : String → Option J)
    (response : String) : ParseResult J GenRecord :=
  if hasBraces response then
    match loads (bracedSubstring response) with
    | some j => .decoded j
    | none => .fallback ⟨response, [], 0, 0, []⟩
  else
    .fallback ⟨response, [], 50, 50, []⟩

/-! ## Content analysis (`ContentModerationAgent.analyze_content`) -/

/-- The record `ContentAnalysis` of `content_moderation_agent.py`. -/
structure ContentAnalysis where
  content_id : String
  toxicity_score : ℚ
  hate_speech_detected : Bool
  misinformation_score : ℚ
  nsfw_detected : Bool
  sentiment : String
  categories : List String
  action : String
  reasoning : String
deriving DecidableEq

/-- `ContentModerationAgent._analyze_sentiment`: count the positive and the
negative keywords occurring in the lowered text. -/
def analyzeSentiment (text : String) : String :=
  let textLower := strLower text
  let positiveCount :=
    (["good", "great", "excellent", "amazing", "wonderful"].filter
      (fun word => strHasSub textLower word)).length
  let negativeCount :=
    (["bad", "terrible", "awful", "horrible", "disgusting"].filter
      (fun word => strHasSub textLower word)).length
  if positiveCount > negativeCount then "positive"
  else if negativeCount > positiveCount then "negative"
  else "neutral"

/-- The keyword table of `ContentModerationAgent._categorize_content` (note
`"AI"` is matched, as in the source, against the lowered text). -/
def categoryKeywords : List (String × List String) :=
  [ ("politics", ["election", "president", "government", "policy"])
  , ("technology", ["AI", "software", "computer", "internet"])
  , ("health", ["medical", "doctor", "health", "disease"])
  , ("sports", ["game", "player", "team", "score"])
  , ("entertainment", ["movie", "music", "show", "celebrity"]) ]

/-- `ContentModerationAgent._categorize_content`. -/
def categorizeContent (text : String) : List String :=
  let textLower := strLower text
  let categories :=
    (categoryKeywords.filter
      (fun p => p.2.any (fun keyword => strHasSub textLower keyword))).map (·.1)
  if categories.isEmpty then ["general"] else categories

/-- The fallback `ContentAnalysis` built by the `except` handler of
`analyze_content` (lines 325–337). -/
def analysisErrorFallback (contentId e : String) : ContentAnalysis :=
  { content_id := contentId
  , toxicity_score := 0
  , hate_speech_detected := false
  , misinformation_score := 0
  , nsfw_detected := false
  , sentiment := "neutral"
  , categories := []
  , action := "flag"
  , reasoning := "Error during analysis: " ++ e }

/-- The `try` block of `analyze_content`: the three tool invocations and the
decode of their outputs are summarised by `toolData` (`.error` standing for
any exception raised while producing them); then the action is chosen and the
record is assembled.  The `except` handler turns any raised step into the
`flag` fallback record. -/
def analyzeContent (thresholds : List (String × ℚ)) (contentId text : String)
    (toolData : Except String (ToxicityData × FactData × NsfwData))
    (reasoning : String) : ContentAnalysis :=
  let attempt : Except String ContentAnalysis := do
    let (tox, fact, nsfw) ← toolData
    let action ← decideAction thresholds tox fact nsfw
    pure
      { content_id := contentId
      , toxicity_score := tox.toxicity_score.getD 0
      , hate_speech_detected := tox.toxic.getD false
      , misinformation_score := fact.misinformation_score.getD 0
      , nsfw_detected := nsfw.nsfw_detected.getD false
      , sentiment := analyzeSentiment text
      , categories := categorizeContent text
      , action := action
      , reasoning := reasoning }
  match attempt with
  | .ok analysis => analysis
  | .error e => analysisErrorFallback contentId e

/-- The whole of `analyze_content`: `result = await self.process_task(...)`
runs BEFORE the `try` block (line 273), so an exception raised there
propagates to the caller; only the subsequent analysis steps are guarded. -/
def analyzeContentFull (thresholds : List (String × ℚ)) (contentId text : String)
    (taskResult : Except String String)
    (toolData : Except String (ToxicityData × FactData × NsfwData)) :
    Except String ContentAnalysis :=
  match taskResult with
  | .error e => .error e
  | .ok reasoning => .ok (analyzeContent thresholds contentId text toolData reasoning)

/-! ## Message envelope and mailbox loop (`base_agent.py`) -/

/-- The `AgentMessage` envelope.  `content` is `Dict[str, Any]`, kept as a
type parameter; the event-loop clock reading (a float in Python) is modelled
as a `Nat` reading of the monotonic clock. -/
structure AgentMessage (α : Type) where
  sender : String
  receiver : String
  message_type : String
  content : α
  timestamp : Nat
  correlation_id : Option String := none

/-- The Redis store as a partial map from key to stored string. -/
def RedisStore : Type := String → Option String

/-- `redis.setex(key, ttl, value)` (the TTL is recorded but not modelled as
elapsing). -/
def redisSetex (st : RedisStore) (key : String) (_ttl : Nat) (value : String) :
    RedisStore :=
  fun k => if k = key then some value else st k

/-- `redis.delete(key)`. -/
def redisDel (st : RedisStore) (key : String) : RedisStore :=
  fun k => if k = key then none else st k

/-- Python truthiness of `Optional[str]`: `None` and `""` are falsy. -/
def pyTruthyOptStr : Option String → Bool
  | none => false
  | some s => !(s == "")

/-- Python truthiness of an optional dict: `None` and `\x7b\x7d` are falsy. -/
def pyTruthyOptDict : Option (List (String × String)) → Bool
  | none => false
  | some d => !d.isEmpty

/-- The body of the `try` block inside `BaseAgent._listen_for_messages`, for
one inbound raw message: construct the `AgentMessage` (which may raise on a
malformed payload — `raw = .error`), run the role-specific handler (which may
raise — handler returns `.error`), and when the message carried a truthy
`correlation_id` and the response is truthy, store `json.dumps(response)`
under `response:{correlation_id}` with a 60-second TTL. -/
def processMessage {α : Type} (dumps : List (String × String) → String)
    (handler : AgentMessage α → Except String (Option (List (String × String))))
    (raw : Except String (AgentMessage α)) (st : RedisStore) :
    Except String RedisStore := do
  let msg ← raw
  let response ← handler msg
  if pyTruthyOptStr msg.correlation_id && pyTruthyOptDict response then
    pure (redisSetex st ("response:" ++ msg.correlation_id.getD "") 60
      (dumps (response.getD [])))
  else
    pure st

/-- One iteration of the mailbox loop: the `except` handler catches every
exception of `processMessage`, logs it, and leaves the store unchanged. -/
def listenStep {α : Type} (dumps : List (String × String) → String)
    (handler : AgentMessage α → Except String (Option (List (String × String))))
    (st : RedisStore) (raw : Except String (AgentMessage α)) : RedisStore :=
  match processMessage dumps handler raw st with
  | .ok st2 => st2
  | .error _ => st

/-- `BaseAgent._listen_for_messages` over a finite inbound sequence: fold the
guarded per-message step over the messages in arrival order. -/
def listenForMessages {α : Type} (dumps : List (String × String) → String)
    (handler : AgentMessage α → Except String (Option (List (String × String))))
    (msgs : List (Except String (AgentMessage α))) (st : RedisStore) : RedisStore :=
  msgs.foldl (listenStep dumps handler) st

/-! ## Correlation and the response wait (`BaseAgent.collaborate_with_agent`) -/

/-- The correlation id
`f"\x7bself.name\x7d_\x7btarget_agent\x7d_\x7bloop.time()\x7d"`. -/
def mkCorrelationId (sender target : String) (time : Nat) : String :=
  sender ++ "_" ++ target ++ "_" ++ toString time

/-- The message constructed by `collaborate_with_agent`. -/
def collaborateMessage {α : Type} (sender target messageType : String)
    (content : α) (time : Nat) : AgentMessage α :=
  { sender := sender
  , receiver := target
  , message_type := messageType
  , content := content
  , timestamp := time
  , correlation_id := some (mkCorrelationId sender target time) }

/-- The polling loop of `collaborate_with_agent`: up to `fuel` polls, the
`i`-th poll observing the store `env i`.  On a hit the value is decoded
(`loads` models `json.loads` on a value known to be well-formed, having been
produced by `json.dumps`) and the key is deleted; after the last miss the
result is `None` and the store is untouched. -/
def awaitLoop {α : Type} (env : Nat → RedisStore) (loads : String → α)
    (key : String) : Nat → Nat → Option α × RedisStore
  | 0, i => (none, env i)
  | fuel + 1, i =>
    match env i key with
    | some v => (some (loads v), redisDel (env i) key)
    | none => awaitLoop env loads key fuel (i + 1)

/-- The wait of `collaborate_with_agent`: poll `response:{correlation_id}`
30 times at 1-second intervals. -/
def awaitResponse {α : Type} (env : Nat → RedisStore) (loads : String → α)
    (correlationId : String) : Option α × RedisStore :=
  awaitLoop env loads ("response:" ++ correlationId) 30 0

/-! ## User profiler (`personalization_agent.py`, `UserProfilerTool._run`)

Python's `list(set(xs))` enumerates a hash set in an unspecified order; the
enumeration is a parameter `setList`, constrained in the theorems only by
what `set` guarantees (a duplicate-free enumeration of the same elements).
The sentence-transformer embedding is a parameter `encode`. -/

/-- One interaction record; `categories` / `tags` may be absent
(`'categories' in interaction` guards the reads, and an absent key
contributes nothing, like a present empty list). -/
structure Interaction where
  categories : Option (List String)
  tags : Option (List String)
deriving DecidableEq

/-- The `preferences` dict assembled by `_analyze_preferences`. -/
structure Preferences where
  preferred_categories : List (String × Nat)
  engagement_times : List (String × Nat)
  content_length_preference : String
  interaction_frequency : String
deriving DecidableEq

/-- The `UserProfile` record of `personalization_agent.py` (the embedding
vector holds opaque model outputs; `last_updated` is a clock reading). -/
structure UserProfile where
  user_id : String
  interests : List String
  interaction_history : List Interaction
  preferences : Preferences
  embedding : Option (List Int)
  last_updated : Nat
deriving DecidableEq

/-- `category_counts[c] = category_counts.get(c, 0) + 1` over an
insertion-ordered counting dict. -/
def bumpCount : List (String × Nat) → String → List (String × Nat)
  | [], c => [(c, 1)]
  | (c2, n) :: rest, c =>
    if c2 == c then (c2, n + 1) :: rest else (c2, n) :: bumpCount rest c

/-- `UserProfilerTool._extract_interests` before its final `list(set(...))`:
concatenate the `categories` and `tags` of every interaction. -/
def collectInterests (interactions : List Interaction) : List String :=
  interactions.foldl
    (fun acc i => acc ++ i.categories.getD [] ++ i.tags.getD []) []

/-- `UserProfilerTool._extract_interests`. -/
def extractInterests (setList : List String → List String)
    (interactions : List Interaction) : List String :=
  setList (collectInterests interactions)

/-- `UserProfilerTool._analyze_preferences`: count categories over the
history, sort by count (descending, stable, as Python's
`sorted(key=..., reverse=True)`), keep the top five. -/
def analyzePreferences (history : List Interaction) : Preferences :=
  let counts :=
    history.foldl (fun acc i => (i.categories.getD []).foldl bumpCount acc) []
  { preferred_categories := (counts.insertionSort (fun a b => b.2 < a.2)).take 5
  , engagement_times := []
  , content_length_preference := "medium"
  , interaction_frequency := "regular" }

/-- Python `xs[-n:]` (for `n > 0`): the last `n` elements. -/
def pyTail {β : Type} (n : Nat) (xs : List β) : List β :=
  xs.drop (xs.length - n)

/-- The profile mutation performed by `UserProfilerTool._run` (lines
149–170): extend the history and keep the last 100, merge the freshly
extracted interests through `list(set(...))` and keep the last 20, recompute
the preferences, re-embed the joined interests, stamp the clock. -/
def runUserProfiler (setList : List String → List String)
    (encode : String → List Int) (now : Nat) (profile : UserProfile)
    (recentInteractions : List Interaction) : UserProfile :=
  let history := pyTail 100 (profile.interaction_history ++ recentInteractions)
  let interests := extractInterests setList recentInteractions
  let newInterests := pyTail 20 (setList (profile.interests ++ interests))
  { profile with
      interaction_history := history
    , interests := newInterests
    , preferences := analyzePreferences history
    , embedding := some (encode (String.intercalate " " newInterests))
    , last_updated := now }

/-- The empty key-value store. -/
def emptyStore : RedisStore := fun _ => none

/-- A concrete `json.dumps` stand-in for exercising the mailbox loop. -/
def exDumps : List (String × String) → String := fun _ => "resp"

/-- A concrete role handler for exercising the mailbox loop: it raises on
messages of type `boom` and answers `\x7b"status": "ok"\x7d` otherwise. -/
def exHandler : AgentMessage Nat → Except String (Option (List (String × String))) :=
  fun m =>
    if m.message_type == "boom" then .error "handler failed"
    else .ok (some [("status", "ok")])

/-- A concrete well-formed inbound message for exercising the mailbox loop. -/
def exMsg (messageType cid : String) : Except String (AgentMessage Nat) :=
  .ok
    { sender := "A"
    , receiver := "B"
    , message_type := messageType
    , content := 0
    , timestamp := 0
    , correlation_id := some cid }

/-- A store trace that never holds the awaited key. -/
def envSilent : Nat → RedisStore := fun _ => emptyStore

/-- A store trace on which `response:c1` appears at poll 2. -/
def envAtTwo : Nat → RedisStore := fun i k =>
  if i == 2 && k == "response:c1" then some "stored" else none

/-- Twenty distinct long-standing interests of a stored profile. -/
def oldInterests : List String :=
  ["i01", "i02", "i03", "i04", "i05", "i06", "i07", "i08", "i09", "i10",
   "i11", "i12", "i13", "i14", "i15", "i16", "i17", "i18", "i19", "i20"]

/-- A stored profile already holding twenty interests. -/
def staleProfile : UserProfile :=
  { user_id := "u1"
  , interests := oldInterests
  , interaction_history := []
  , preferences := ⟨[], [], "medium", "regular"⟩
  , embedding := none
  , last_updated := 0 }

/-- A recent interaction introducing the single new interest `fresh`. -/
def freshInteraction : Interaction :=
  { categories := some ["fresh"], tags := none }

/-- A legitimate hash-set enumeration order (duplicate-free, same elements)
under which the newest element comes FIRST — Python fixes no particular
order for `list(set(...))`. -/
def newestFirstEnum : List String → List String := fun xs => xs.reverse.dedup

/-- The specification's worked parser example:
`prefix \x7b"status":"APPROVED","score":90\x7d suffix`. -/
def exampleModerationText : String :=
  "prefix " ++ lbrace ++ "\"status\":\"APPROVED\",\"score\":90" ++ rbrace ++ " suffix"

/-- The object embedded in `exampleModerationText`. -/
def exampleEmbeddedObject : String :=
  lbrace ++ "\"status\":\"APPROVED\",\"score\":90" ++ rbrace

/-! ## Helper lemmas -/

lemma dictLookup_dictSet_self (d : List (String × ℚ)) (k : String) (v : ℚ) :
    dictLookup (dictSet d k v) k = some v := by
  induction d with
  | nil => simp [dictSet, dictLookup]
  | cons p rest ih =>
    obtain ⟨k2, v2⟩ := p
    by_cases h : k2 == k
    · simp [dictSet, h, dictLookup]
    · simp [dictSet, h, dictLookup, ih]

lemma dictLookup_dictSet_ne (d : List (String × ℚ)) (k k2 : String) (v : ℚ)
    (h : k2 ≠ k) : dictLookup (dictSet d k2 v) k = dictLookup d k := by
  induction d with
  | nil => simp [dictSet, dictLookup, h]
  | cons p rest ih =>
    obtain ⟨k3, v3⟩ := p
    by_cases h3 : k3 == k2
    · rw [beq_iff_eq] at h3
      subst h3
      simp [dictSet, dictLookup, h]
    · by_cases h4 : k3 == k <;> simp [dictSet, h3, dictLookup, h4, ih]

lemma dictUpdate_cons (t : List (String × ℚ)) (p : String × ℚ)
    (u : List (String × ℚ)) :
    dictUpdate t (p :: u) = dictUpdate (dictSet t p.1 p.2) u := rfl

lemma dictLookup_dictUpdate_notin (u : List (String × ℚ)) :
    ∀ t k, (∀ p ∈ u, p.1 ≠ k) → dictLookup (dictUpdate t u) k = dictLookup t k := by
  induction u with
  | nil => intro t k _; rfl
  | cons p u2 ih =>
    intro t k h
    rw [dictUpdate_cons, ih _ _ (fun q hq => h q (List.mem_cons_of_mem p hq)),
      dictLookup_dictSet_ne _ _ _ _ (h p (List.mem_cons_self p u2))]

lemma dictLookup_dictUpdate_mem (u : List (String × ℚ)) :
    ∀ t k v, (k, v) ∈ u → (u.map Prod.fst).Nodup →
      dictLookup (dictUpdate t u) k = some v := by
  induction u with
  | nil => simp
  | cons p u2 ih =>
    intro t k v hmem hnd
    rw [List.map_cons, List.nodup_cons] at hnd
    rcases List.mem_cons.mp hmem with heq | htail
    · subst heq
      rw [dictUpdate_cons]
      have hnot : ∀ q ∈ u2, q.1 ≠ k := by
        intro q hq hqk
        exact hnd.1 (List.mem_map.mpr ⟨q, hq, hqk⟩)
      rw [dictLookup_dictUpdate_notin u2 _ _ hnot, dictLookup_dictSet_self]
    · exact dictUpdate_cons .. ▸ ih _ _ _ htail hnd.2

lemma awaitLoop_none {α : Type} (env : Nat → RedisStore) (loads : String → α)
    (key : String) :
    ∀ fuel i, (∀ j, j < fuel → env (i + j) key = none) →
      awaitLoop env loads key fuel i = (none, env (i + fuel)) := by
  intro fuel
  induction fuel with
  | zero => intro i _; simp [awaitLoop]
  | succ f ih =>
    intro i h
    have h0 : env i key = none := by simpa using h 0 (Nat.succ_pos f)
    simp only [awaitLoop, h0]
    have harg : ∀ j, j < f → env (i + 1 + j) key = none := by
      intro j hj
      have := h (j + 1) (Nat.succ_lt_succ hj)
      rwa [show i + (j + 1) = i + 1 + j by omega] at this
    rw [ih (i + 1) harg, show i + 1 + f = i + (f + 1) by omega]

lemma awaitLoop_found {α : Type} (env : Nat → RedisStore) (loads : String → α)
    (key : String) :
    ∀ fuel i j v, j < fuel → (∀ j2, j2 < j → env (i + j2) key = none) →
      env (i + j) key = some v →
      awaitLoop env loads key fuel i =
        (some (loads v), redisDel (env (i + j)) key) := by
  intro fuel
  induction fuel with
  | zero => intro i j v hj _ _; exact absurd hj (Nat.not_lt_zero j)
  | succ f ih =>
    intro i j v hj hpre hv
    cases j with
    | zero =>
      have h0 : env i key = some v := by simpa using hv
      simp only [awaitLoop, h0]
      simp
    | succ j2 =>
      have h0 : env i key = none := by simpa using hpre 0 (Nat.succ_pos j2)
      simp only [awaitLoop, h0]
      have harg : ∀ j3, j3 < j2 → env (i + 1 + j3) key = none := by
        intro j3 hj3
        have := hpre (j3 + 1) (Nat.succ_lt_succ hj3)
        rwa [show i + (j3 + 1) = i + 1 + j3 by omega] at this
      have hv2 : env (i + 1 + j2) key = some v := by
        rwa [show i + (j2 + 1) = i + 1 + j2 by omega] at hv
      rw [ih (i + 1) j2 v (by omega) harg hv2,
        show i + 1 + j2 = i + (j2 + 1) by omega]

lemma listenForMessages_append {α : Type} (dumps : List (String × String) → String)
    (handler : AgentMessage α → Except String (Option (List (String × String))))
    (xs ys : List (Except String (AgentMessage α))) (st : RedisStore) :
    listenForMessages dumps handler (xs ++ ys) st =
      listenForMessages dumps handler ys (listenForMessages dumps handler xs st) := by
  simp [listenForMessages, List.foldl_append]

lemma pyTail_length_le {β : Type} (n : Nat) (xs : List β) :
    (pyTail n xs).length ≤ n := by
  simp only [pyTail, List.length_drop]
  omega

lemma pyTail_subset {β : Type} (n : Nat) (xs : List β) : pyTail n xs ⊆ xs :=
  List.drop_subset _ _

lemma string_append_left_cancel {p x y : String} (h : p ++ x = p ++ y) : x = y := by
  have hd := congrArg String.data h
  rw [String.data_append, String.data_append] at hd
  exact String.ext (List.append_cancel_left hd)

/-! ## Claim theorems -/

/-- C1: the moderation decision of `analyze_content`, run with the default
threshold table (toxicity = 0.7, misinformation = 0.6), equals the
specification's priority-ordered reference function for every toxicity score,
misinformation score, nsfw flag and needs-review flag: `reject` when
toxicity > 0.7 or misinformation > 0.6 or nsfw, else `flag` when
toxicity > 0.5 or review is needed, else `approve`. -/
theorem moderation_decision_matches_spec (t m : ℚ) (toxB : Option Bool)
    (nsfwD nr : Bool) :
    decideAction defaultThresholds ⟨some t, toxB⟩ ⟨some m, some nr⟩ ⟨some nsfwD⟩ =
      .ok (specDecide t m nsfwD nr) := by
  have h1 : thresholdAt defaultThresholds "toxicity" = .ok 0.7 := rfl
  have h2 : thresholdAt defaultThresholds "misinformation" = .ok 0.6 := rfl
  simp only [decideAction, h1, h2, specDecide, Option.getD, bind, Except.bind,
    pure, Except.pure]
  split_ifs <;> rfl

/-- C5: applying an `update_thresholds` message merges the partial mapping
into the threshold table: every key named in the mapping takes its mapped
value (dict keys are unique), and every key not named keeps its prior
value. -/
theorem update_thresholds_frame (t u : List (String × ℚ)) (k : String) :
    ((∀ p ∈ u, p.1 ≠ k) →
      dictLookup (handleUpdateThresholds t u) k = dictLookup t k) ∧
    (∀ v, (k, v) ∈ u → (u.map Prod.fst).Nodup →
      dictLookup (handleUpdateThresholds t u) k = some v) :=
  ⟨fun h => dictLookup_dictUpdate_notin u t k h,
   fun v hv hnd => dictLookup_dictUpdate_mem u t k v hv hnd⟩

/-- Witness for C5 at the spec's example: updating the default table with
`("toxicity" ↦ 0.9)` leaves `hate_speech`, `misinformation` and `nsfw` at
their prior values and sets `toxicity` to 0.9. -/
theorem update_thresholds_frame_witness :
    dictLookup (handleUpdateThresholds defaultThresholds [("toxicity", 0.9)])
        "hate_speech" = dictLookup defaultThresholds "hate_speech" ∧
    dictLookup (handleUpdateThresholds defaultThresholds [("toxicity", 0.9)])
        "misinformation" = dictLookup defaultThresholds "misinformation" ∧
    dictLookup (handleUpdateThresholds defaultThresholds [("toxicity", 0.9)])
        "nsfw" = dictLookup defaultThresholds "nsfw" ∧
    dictLookup (handleUpdateThresholds defaultThresholds [("toxicity", 0.9)])
        "toxicity" = some 0.9 :=
  ⟨(update_thresholds_frame defaultThresholds [("toxicity", 0.9)] "hate_speech").1
      (by decide),
   (update_thresholds_frame defaultThresholds [("toxicity", 0.9)] "misinformation").1
      (by decide),
   (update_thresholds_frame defaultThresholds [("toxicity", 0.9)] "nsfw").1
      (by decide),
   (update_thresholds_frame defaultThresholds [("toxicity", 0.9)] "toxicity").2 0.9
      (List.mem_singleton.mpr rfl) (by decide)⟩

/-- C2 counterexample: on the brace-carrying text `x \x7b oops \x7d` whose
braced substring fails to decode, `_parse_moderation_response` returns the
`except`-handler record (status `ERROR`, score 0) — not the keyword default
record (which would here be `APPROVED` with score 50) as the claim states. -/
theorem parse_moderation_decode_failure_not_default :
    parseModerationResponse (fun _ => (none : Option Unit))
        ("x " ++ lbrace ++ " oops " ++ rbrace) =
      .fallback (moderationErrorRecord ("x " ++ lbrace ++ " oops " ++ rbrace)) ∧
    moderationErrorRecord ("x " ++ lbrace ++ " oops " ++ rbrace) ≠
      moderationFallback ("x " ++ lbrace ++ " oops " ++ rbrace) := by
  exact ⟨by decide, by decide⟩

/-- C2 amended: on a text without a brace pair the moderation parser returns
the keyword default record (`FLAGGED` when `inappropriate` / `harmful` /
`spam` occurs case-insensitively, else `APPROVED`, score 50); on a text with
a brace pair whose extracted substring fails to decode it returns the error
record with status `ERROR` and score 0.  In neither case does an exception
escape (the embedding is a total function). -/
theorem parse_moderation_fallback_amended {J : Type} (loads : String → Option J)
    (response : String) :
    (hasBraces response = false →
      parseModerationResponse loads response =
        .fallback (moderationFallback response)) ∧
    (hasBraces response = true → loads (bracedSubstring response) = none →
      parseModerationResponse loads response =
        .fallback (moderationErrorRecord response)) := by
  refine ⟨fun h => ?_, fun h hl => ?_⟩
  · simp [parseModerationResponse, h]
  · simp [parseModerationResponse, h, hl]

/-- Witness for C2 (amended) at concrete inputs: a keyword text without
braces is `FLAGGED`, a keyword-free text without braces is `APPROVED`, and a
brace pair around undecodable content gives the `ERROR` record. -/
theorem parse_moderation_fallback_amended_witness :
    parseModerationResponse (fun _ => (none : Option Unit)) "this is spam" =
      .fallback ⟨"FLAGGED", 50, "this is spam", [], []⟩ ∧
    parseModerationResponse (fun _ => (none : Option Unit)) "all fine" =
      .fallback ⟨"APPROVED", 50, "all fine", [], []⟩ ∧
    parseModerationResponse (fun _ => (none : Option Unit))
        ("a" ++ lbrace ++ "b" ++ rbrace) =
      .fallback ⟨"ERROR", 0, "a" ++ lbrace ++ "b" ++ rbrace, [], []⟩ := by
  refine ⟨?_, ?_, ?_⟩
  · rw [(parse_moderation_fallback_amended (fun _ => (none : Option Unit))
      "this is spam").1 (by decide)]
    decide
  · rw [(parse_moderation_fallback_amended (fun _ => (none : Option Unit))
      "all fine").1 (by decide)]
    decide
  · rw [(parse_moderation_fallback_amended (fun _ => (none : Option Unit))
      ("a" ++ lbrace ++ "b" ++ rbrace)).2 (by decide) rfl]
    decide

/-- C4: on any text containing at least one `\x7b` and at least one `\x7d`,
the parser feeds exactly `bracedSubstring response` — the slice from the
first `\x7b` through the last `\x7d`, brace-greedy, not balance-aware — to
the decoder, and when that substring decodes it returns the decoded
object. -/
theorem parse_brace_greedy_decoded {J : Type} (loads : String → Option J)
    (response : String) (j : J) :
    response.data.contains '\x7b' = true → response.data.contains '\x7d' = true →
    loads (bracedSubstring response) = some j →
    parseModerationResponse loads response = .decoded j := by
  intro h1 h2 hl
  have hb : hasBraces response = true := by
    rw [hasBraces, h1, h2]
    rfl
  simp [parseModerationResponse, hb, hl]

/-- Witness for C4 at the spec's example: the braced substring of
`prefix \x7b"status":"APPROVED","score":90\x7d suffix` is exactly the
embedded object, and a decoder accepting it makes the parser return its
decoding. -/
theorem parse_brace_greedy_decoded_witness :
    bracedSubstring exampleModerationText = exampleEmbeddedObject ∧
    parseModerationResponse
        (fun s => if s == exampleEmbeddedObject then some 7 else none)
        exampleModerationText = .decoded 7 :=
  ⟨by decide,
   parse_brace_greedy_decoded
     (fun s => if s == exampleEmbeddedObject then some 7 else none)
     exampleModerationText 7 (by decide) (by decide) (by decide)⟩

/-- C8 counterexample: on the brace-free text `hello`, the personalization
parser falls back to score `50` (not zero), and the generation parser keeps
the raw text as `content` (not empty) with scores `50` — refuting the claim
that the no-brace defaults are empty/zero records. -/
theorem nonmoderation_no_brace_not_zero :
    parsePersonalizationResponse (fun _ => (none : Option Unit)) "hello" =
      .fallback ⟨[], [], [], [], 50⟩ ∧
    parseGenerationResponse (fun _ => (none : Option Unit)) "hello" =
      .fallback ⟨"hello", [], 50, 50, []⟩ ∧
    (50 : Int) ≠ 0 ∧ "hello" ≠ "" := by
  exact ⟨by decide, by decide, by decide, by decide⟩

/-- C8 amended: on a text without a brace pair, the personalization parser
returns the neutral record with empty lists and score `50`, and the
generation parser returns the record carrying the raw text as `content`,
empty lists and scores `50` (the all-zero records are produced by the decode
-failure path instead). -/
theorem nonmoderation_no_brace_defaults {J : Type} (loads : String → Option J)
    (response : String) :
    hasBraces response = false →
    parsePersonalizationResponse loads response = .fallback ⟨[], [], [], [], 50⟩ ∧
    parseGenerationResponse loads response = .fallback ⟨response, [], 50, 50, []⟩ := by
  intro h
  exact ⟨by simp [parsePersonalizationResponse, h],
    by simp [parseGenerationResponse, h]⟩

/-- C3: the response wait of `collaborate_with_agent` polls
`response:{correlation_id}` 30 times; if the key is never observed during the
30 polls the wait returns `None` with the store untouched (a timeout, not an
error); if the key is observed at some poll before the polls are exhausted,
the wait returns the decoded stored value and deletes the key — so after a
successful read the key is gone and no second waiter can consume it. -/
theorem await_response_spec {α : Type} (env : Nat → RedisStore)
    (loads : String → α) (correlationId : String) :
    ((∀ i, i < 30 → env i ("response:" ++ correlationId) = none) →
      awaitResponse env loads correlationId = (none, env 30)) ∧
    (∀ i v, i < 30 →
      (∀ j, j < i → env j ("response:" ++ correlationId) = none) →
      env i ("response:" ++ correlationId) = some v →
      awaitResponse env loads correlationId =
        (some (loads v), redisDel (env i) ("response:" ++ correlationId)) ∧
      (awaitResponse env loads correlationId).2 ("response:" ++ correlationId) =
        none) := by
  constructor
  · intro h
    have := awaitLoop_none env loads ("response:" ++ correlationId) 30 0
      (fun j hj => by simpa using h j hj)
    simpa [awaitResponse] using this
  · intro i v hi hpre hv
    have heq := awaitLoop_found env loads ("response:" ++ correlationId) 30 0 i v
      hi (fun j2 hj2 => by simpa using hpre j2 hj2) (by simpa using hv)
    have hmain : awaitResponse env loads correlationId =
        (some (loads v), redisDel (env i) ("response:" ++ correlationId)) := by
      simpa [awaitResponse] using heq
    refine ⟨hmain, ?_⟩
    rw [hmain]
    simp [redisDel]

/-- Witness for C3: on a trace never holding the key the wait at id `c1`
times out to `None`; on a trace where `response:c1` appears at poll 2 the
wait returns the stored value and the returned store no longer holds the
key. -/
theorem await_response_spec_witness :
    awaitResponse envSilent (fun s => s) "c1" = (none, emptyStore) ∧
    awaitResponse envAtTwo (fun s => s) "c1" =
      (some "stored", redisDel (envAtTwo 2) "response:c1") ∧
    (awaitResponse envAtTwo (fun s => s) "c1").2 "response:c1" = none :=
  ⟨(await_response_spec envSilent (fun s => s) "c1").1 (fun _ _ => rfl),
   (await_response_spec envAtTwo (fun s => s) "c1").2 2 "stored" (by decide)
     (by decide) (by decide)⟩

/-- C6: an exception raised while handling one inbound message — whether the
message construction fails or the role handler raises — is caught by the
mailbox loop's per-message `except`: the failing message leaves the store
unchanged and every subsequent message in the sequence is still processed,
exactly as if the loop had been run on the remaining messages alone. -/
theorem mailbox_loop_survives_exception {α : Type}
    (dumps : List (String × String) → String)
    (handler : AgentMessage α → Except String (Option (List (String × String))))
    (msgs1 : List (Except String (AgentMessage α)))
    (bad : Except String (AgentMessage α))
    (msgs2 : List (Except String (AgentMessage α))) (st : RedisStore) (e : String) :
    processMessage dumps handler bad (listenForMessages dumps handler msgs1 st) =
      .error e →
    listenForMessages dumps handler (msgs1 ++ bad :: msgs2) st =
      listenForMessages dumps handler msgs2 (listenForMessages dumps handler msgs1 st) := by
  intro h
  rw [listenForMessages_append]
  have hstep : listenStep dumps handler (listenForMessages dumps handler msgs1 st)
      bad = listenForMessages dumps handler msgs1 st := by
    rw [listenStep, h]
  show List.foldl (listenStep dumps handler) _ (bad :: msgs2) = _
  rw [List.foldl_cons, hstep]
  rfl

/-- Witness for C6: a three-message inbox whose middle message makes the
handler raise; the loop's result equals running the tail after the head, and
the response of the post-failure message is still stored. -/
theorem mailbox_loop_survives_exception_witness :
    listenForMessages exDumps exHandler
        [exMsg "m1" "c1", exMsg "boom" "cb", exMsg "m2" "c2"] emptyStore =
      listenForMessages exDumps exHandler [exMsg "m2" "c2"]
        (listenForMessages exDumps exHandler [exMsg "m1" "c1"] emptyStore) ∧
    listenForMessages exDumps exHandler
        [exMsg "m1" "c1", exMsg "boom" "cb", exMsg "m2" "c2"] emptyStore
        "response:c2" = some "resp" :=
  ⟨mailbox_loop_survives_exception exDumps exHandler [exMsg "m1" "c1"]
      (exMsg "boom" "cb") [exMsg "m2" "c2"] emptyStore "handler failed" rfl,
   rfl⟩

/-- C7 counterexample: two distinct concurrent collaboration requests — same
sender `A` and target `B`, different message types, issued at the same
event-loop clock reading — receive the SAME correlation id, refuting the
claim that distinct concurrent requests always get distinct ids: the id is
`sender_target_time` and carries nothing else. -/
theorem correlation_id_collision :
    (collaborateMessage "A" "B" "moderate_content" (0 : Nat) 5).message_type ≠
      (collaborateMessage "A" "B" "update_thresholds" (0 : Nat) 5).message_type ∧
    (collaborateMessage "A" "B" "moderate_content" (0 : Nat) 5).correlation_id =
      (collaborateMessage "A" "B" "update_thresholds" (0 : Nat) 5).correlation_id :=
  ⟨by decide, rfl⟩

/-- C7 amended: for a fixed sender and target, two requests' correlation ids
are equal exactly when the renderings of their event-loop clock readings are
equal; ids therefore distinguish requests if and only if their clock readings
render differently, and two concurrent requests observing the same reading
share one id. -/
theorem correlation_id_amended (s t : String) (time1 time2 : Nat) :
    mkCorrelationId s t time1 = mkCorrelationId s t time2 ↔
      toString time1 = toString time2 := by
  constructor
  · intro h
    simp only [mkCorrelationId] at h
    exact string_append_left_cancel h
  · intro h
    simp only [mkCorrelationId, h]

/-- Witness for C8 (amended) at the brace-free text `xyz`. -/
theorem nonmoderation_no_brace_defaults_witness :
    parsePersonalizationResponse (fun _ => (none : Option Unit)) "xyz" =
      .fallback ⟨[], [], [], [], 50⟩ ∧
    parseGenerationResponse (fun _ => (none : Option Unit)) "xyz" =
      .fallback ⟨"xyz", [], 50, 50, []⟩ :=
  nonmoderation_no_brace_defaults (fun _ => (none : Option Unit)) "xyz" (by decide)

/-- C9 counterexample: the interests pass through `list(set(...))`, whose
enumeration order is unspecified; under the legitimate enumeration
`newestFirstEnum` (a duplicate-free permutation of the distinct elements, as
witnessed by the two permutation conjuncts for both `set` calls the run
performs), a profile holding twenty interests that gains the single new
interest `fresh` ends with twenty interests NOT containing `fresh` — the
truncation keeps twenty stale interests and drops the newest, refuting the
claimed most-recent bias. -/
theorem profiler_recency_not_guaranteed :
    List.Perm (newestFirstEnum (oldInterests ++ ["fresh"]))
      (oldInterests ++ ["fresh"]).dedup ∧
    List.Perm (newestFirstEnum ["fresh"]) (["fresh"] : List String).dedup ∧
    "fresh" ∈ collectInterests [freshInteraction] ∧
    (runUserProfiler newestFirstEnum (fun _ => []) 7 staleProfile
      [freshInteraction]).interests.length = 20 ∧
    "fresh" ∉ (runUserProfiler newestFirstEnum (fun _ => []) 7 staleProfile
      [freshInteraction]).interests := by
  exact ⟨by decide, by decide, by decide, by decide, by decide⟩

/-- C9 amended: after a profiler run the persisted profile has at most 100
interaction-history entries, and they are a suffix (the most recent entries)
of the old history followed by the new interactions; it has at most 20
interests, each drawn from the prior interests or from the categories/tags of
the recent interactions.  Which 20 survive depends on the unspecified
enumeration order of `set`, so no most-recent bias is guaranteed (the
hypothesis `hset` is exactly what Python's `set` provides: an enumeration
with the same members). -/
theorem profiler_bounds (setList : List String → List String)
    (encode : String → List Int) (now : Nat) (profile : UserProfile)
    (recent : List Interaction)
    (hset : ∀ xs a, a ∈ setList xs ↔ a ∈ xs) :
    (runUserProfiler setList encode now profile recent).interaction_history.length
        ≤ 100 ∧
    (runUserProfiler setList encode now profile recent).interaction_history <:+
      profile.interaction_history ++ recent ∧
    (runUserProfiler setList encode now profile recent).interests.length ≤ 20 ∧
    ∀ a ∈ (runUserProfiler setList encode now profile recent).interests,
      a ∈ profile.interests ∨ a ∈ collectInterests recent := by
  refine ⟨pyTail_length_le 100 _, List.drop_suffix _ _, pyTail_length_le 20 _, ?_⟩
  intro a ha
  have h1 : a ∈ setList (profile.interests ++ extractInterests setList recent) :=
    pyTail_subset 20 _ ha
  have h2 : a ∈ profile.interests ++ extractInterests setList recent :=
    (hset _ a).mp h1
  rcases List.mem_append.mp h2 with h3 | h3
  · exact Or.inl h3
  · exact Or.inr ((hset _ a).mp h3)

/-- Witness for C9 (amended) on a concrete run: a 20-interest profile gaining
`fresh` through the identity enumeration keeps the bounds, and `fresh` can
only have come from the prior interests or the recent interactions. -/
theorem profiler_bounds_witness :
    (runUserProfiler (fun xs => xs) (fun _ => []) 7 staleProfile
      [freshInteraction]).interaction_history.length ≤ 100 ∧
    (runUserProfiler (fun xs => xs) (fun _ => []) 7 staleProfile
      [freshInteraction]).interaction_history <:+
      staleProfile.interaction_history ++ [freshInteraction] ∧
    (runUserProfiler (fun xs => xs) (fun _ => []) 7 staleProfile
      [freshInteraction]).interests.length ≤ 20 ∧
    ("fresh" ∈ staleProfile.interests ∨
      "fresh" ∈ collectInterests [freshInteraction]) := by
  have h := profiler_bounds (fun xs => xs) (fun _ => []) 7 staleProfile
    [freshInteraction] (fun _ _ => Iff.rfl)
  exact ⟨h.1, h.2.1, h.2.2.1, h.2.2.2 "fresh" (by decide)⟩

/-- C10 counterexample: `result = await self.process_task(...)` runs BEFORE
the `try` block of `analyze_content`, so when the LLM task step raises, the
exception propagates to the caller instead of being converted into the
`flag` fallback record — refuting the claim for that internal step. -/
theorem analysis_task_error_propagates :
    analyzeContentFull defaultThresholds "c1" "hello" (.error "llm down")
        (.error "llm down") = .error "llm down" ∧
    (Except.error "llm down" : Except String ContentAnalysis) ≠
      .ok (analysisErrorFallback "c1" "llm down") :=
  ⟨rfl, fun h => Except.noConfusion h⟩

/-- C10 amended: an exception raised inside the guarded analysis phase (tool
invocation, output decoding, threshold lookup, record construction) is caught
and turned into the fallback `ContentAnalysis` — action `flag`, zero scores,
no detections, neutral sentiment, empty categories, never `approve` or
`reject` — while an exception from the initial `process_task` LLM step
propagates to the caller. -/
theorem analysis_inner_error_flag_fallback (thresholds : List (String × ℚ))
    (contentId text reasoning e : String) :
    analyzeContent thresholds contentId text (.error e) reasoning =
      analysisErrorFallback contentId e ∧
    (analysisErrorFallback contentId e).action = "flag" ∧
    (analysisErrorFallback contentId e).toxicity_score = 0 ∧
    (analysisErrorFallback contentId e).misinformation_score = 0 ∧
    (analysisErrorFallback contentId e).hate_speech_detected = false ∧
    (analysisErrorFallback contentId e).nsfw_detected = false ∧
    (analysisErrorFallback contentId e).sentiment = "neutral" ∧
    (analysisErrorFallback contentId e).categories = [] ∧
    (analysisErrorFallback contentId e).action ≠ "approve" ∧
    (analysisErrorFallback contentId e).action ≠ "reject" ∧
    analyzeContentFull thresholds contentId text (.ok reasoning) (.error e) =
      .ok (analysisErrorFallback contentId e) :=
  ⟨rfl, rfl, rfl, rfl, rfl, rfl, rfl, rfl,
    (by decide : ("flag" : String) ≠ "approve"),
    (by decide : ("flag" : String) ≠ "reject"), rfl⟩

end ConnectSphere
